import Mathlib

/-!
Verification of the HDB resale-price predictor's feature encoding and
prediction pipeline (src/hdb-resale-price.py), as a shallow embedding.

Numeric feature values are modelled as rationals (`ℚ`): Python ints embed
exactly, and every float literal appearing in the program (148.0, the 0/1
indicators, raw model outputs used in examples such as 412374.5) is exactly
representable, so `ℚ` is faithful on the values the claims mention.
-/

/-- The 26 town literals, in declared order (source lines 195-222). -/
def towns : List String :=
  [ "ANG MO KIO",
    "BEDOK",
    "BISHAN",
    "BUKIT BATOK",
    "BUKIT MERAH",
    "BUKIT PANJANG",
    "BUKIT TIMAH",
    "CENTRAL AREA",
    "CHOA CHU KANG",
    "CLEMENTI",
    "GEYLANG",
    "HOUGANG",
    "JURONG EAST",
    "JURONG WEST",
    "KALLANG/WHAMPOA",
    "MARINE PARADE",
    "PASIR RIS",
    "PUNGGOL",
    "QUEENSTOWN",
    "SEMBAWANG",
    "SENGKANG",
    "SERANGOON",
    "TAMPINES",
    "TOA PAYOH",
    "WOODLANDS",
    "YISHUN" ]

/-- The 5 flat-type literals, in declared order (source lines 225-231). -/
def flat_types : List String :=
  [ "3 ROOM",
    "4 ROOM",
    "5 ROOM",
    "EXECUTIVE",
    "MULTI-GENERATION" ]

/-- The form values consumed by one prediction request (source lines 171-232). -/
structure PropertyInput where
  floor_area : ℚ
  lease_commence_date : ℤ
  postal_code : ℤ
  current_year : ℤ
  selected_town : String
  selected_flat_type : String
deriving DecidableEq

/-- The domains the input widgets enforce: floor area in [1, 500], lease
commencement date in [1960, 2024], postal code in [10000, 999999],
current year fixed at 2024, and the two categorical fields drawn from
their select boxes. -/
def ValidInput (p : PropertyInput) : Prop :=
  1 ≤ p.floor_area ∧ p.floor_area ≤ 500 ∧
  1960 ≤ p.lease_commence_date ∧ p.lease_commence_date ≤ 2024 ∧
  10000 ≤ p.postal_code ∧ p.postal_code ≤ 999999 ∧
  p.current_year = 2024 ∧
  p.selected_town ∈ towns ∧ p.selected_flat_type ∈ flat_types

instance (p : PropertyInput) : Decidable (ValidInput p) := by
  unfold ValidInput; infer_instance

/-- The feature array (source lines 256-269): the four numeric fields, then
the one-hot town encoding appended town by town, then the one-hot flat-type
encoding appended flat type by flat type. -/
def features (p : PropertyInput) : List ℚ :=
  [ p.floor_area,
    (p.lease_commence_date : ℚ),
    (p.postal_code : ℚ),
    (p.current_year : ℚ) ]
    ++ towns.map (fun town => if town = p.selected_town then (1 : ℚ) else 0)
    ++ flat_types.map (fun flat_type =>
        if flat_type = p.selected_flat_type then (1 : ℚ) else 0)

/-- Python's built-in `round`: nearest integer, ties to even. -/
def pyRound (x : ℚ) : ℤ :=
  if x - (x.floor : ℚ) < 1/2 then x.floor
  else if 1/2 < x - (x.floor : ℚ) then x.floor + 1
  else if x.floor % 2 = 0 then x.floor else x.floor + 1

/-- `rounded_price = round(prediction[0] / 1000) * 1000` (source line 275),
as a function of the raw model output. -/
def rounded_price (raw : ℚ) : ℤ :=
  pyRound (raw / 1000) * 1000

/-- The outcome of one run of the script body after the model-load attempt
(source lines 126-318): either the script is halted by `st.stop` with a
blocking error message, or the page is rendered, possibly showing a price
and possibly showing a per-request error message. -/
inductive ScriptResult
  | halted (msg : String)
  | rendered (price : Option ℤ) (errMsg : Option String)
deriving DecidableEq

/-- The opaque model handle loaded from the pickle artifact. Its `predict`
takes a batch of feature vectors and either returns the sequence of raw
outputs or raises; raising is modelled as `Except.error` carrying the
exception text. -/
structure Model where
  predict : List (List ℚ) → Except String (List ℚ)

/-- The blocking message shown when `load_model` returned `None`
(source lines 128-133). -/
def modelLoadErrorMsg : String :=
  "Could not load the model. Please check if the model file exists " ++
  "in `models/XBR_trained_hdb_resale_modelV4a.pkl`."

/-- The per-request message of the `except` branch (source line 310). -/
def predictionErrorMsg (e : String) : String :=
  "An error occurred during prediction: " ++ e

/-- Exception text for indexing `prediction[0]` when the returned sequence
is empty. -/
def indexOutOfRangeMsg : String :=
  "index 0 is out of bounds"

/-- One run of the script after the model-load attempt (source lines
126-318): if the load failed (`load = none`) the script stops at the
blocking error; otherwise, if the predict button was clicked, the try
block builds the features, calls `model.predict` on the one-element batch,
indexes the result at 0 and rounds it, with any raise caught and turned
into a per-request error message. Returns the outcome paired with the
list of batches passed to `model.predict` during the run. -/
def runScript (load : Option Model) (clicked : Bool) (p : PropertyInput) :
    ScriptResult × List (List (List ℚ)) :=
  match load with
  | none => (ScriptResult.halted modelLoadErrorMsg, [])
  | some model =>
    if clicked then
      match model.predict [features p] with
      | Except.error e =>
          (ScriptResult.rendered none (some (predictionErrorMsg e)), [[features p]])
      | Except.ok prediction =>
        match prediction with
        | [] =>
            (ScriptResult.rendered none (some (predictionErrorMsg indexOutOfRangeMsg)),
             [[features p]])
        | raw :: _ =>
            (ScriptResult.rendered (some (rounded_price raw)) none, [[features p]])
    else (ScriptResult.rendered none none, [])

/-- Streamlit reruns the whole script once per interaction; the cached
load result (`st.cache_resource`, source line 112) is shared across runs
and nothing else persists, so a sequence of requests is served by
independent runs of the script. -/
def serveRequests (load : Option Model) (reqs : List (Bool × PropertyInput)) :
    List ScriptResult :=
  reqs.map (fun r => (runScript load r.1 r.2).1)

/-- The default form values of the example request: floor area 148.0,
lease commencement 1992, postal code 520329, current year 2024, town
"ANG MO KIO", flat type "4 ROOM". -/
def exampleInput : PropertyInput :=
  ⟨148, 1992, 520329, 2024, "ANG MO KIO", "4 ROOM"⟩

/-! ### Helper lemmas -/

theorem features_length (p : PropertyInput) : (features p).length = 35 := rfl

theorem features_town_block (p : PropertyInput) :
    ((features p).drop 4).take 26
      = towns.map (fun town => if town = p.selected_town then (1 : ℚ) else 0) := rfl

theorem features_flat_block (p : PropertyInput) :
    (features p).drop 30
      = flat_types.map (fun flat_type =>
          if flat_type = p.selected_flat_type then (1 : ℚ) else 0) := rfl

theorem ratFloor_eq_intFloor (x : ℚ) : x.floor = ⌊x⌋ := by
  rw [Rat.floor_def, Rat.floor_def']

theorem abs_pyRound_sub_le (x : ℚ) : |(pyRound x : ℚ) - x| ≤ 1/2 := by
  have h0 : (⌊x⌋ : ℚ) ≤ x := Int.floor_le x
  have h1 : x < ⌊x⌋ + 1 := Int.lt_floor_add_one x
  unfold pyRound
  rw [ratFloor_eq_intFloor]
  split
  · next h => rw [abs_le]; constructor <;> linarith
  · next h =>
    have h' := not_lt.mp h
    split
    · next h2 => rw [abs_le]; push_cast; constructor <;> linarith
    · next h2 =>
      have h2' := not_lt.mp h2
      split
      · rw [abs_le]; constructor <;> linarith
      · rw [abs_le]; push_cast; constructor <;> linarith

theorem pyRound_tie_even (n : ℤ) : pyRound ((2 * n + 1 : ℚ) / 2) % 2 = 0 := by
  have hx : ((2 * n + 1 : ℚ)) / 2 = (n : ℚ) + 1/2 := by ring
  have hfl : (((2 * n + 1 : ℚ)) / 2).floor = n := by
    rw [ratFloor_eq_intFloor, hx, Int.floor_int_add]
    norm_num
  unfold pyRound
  rw [hfl, hx]
  have h12 : (n : ℚ) + 1/2 - (n : ℚ) = 1/2 := by ring
  rw [h12]
  rw [if_neg (lt_irrefl _), if_neg (lt_irrefl _)]
  split <;> omega

theorem rounded_price_example : rounded_price 412374.5 = 412000 := by
  have hfl : ((412374.5 : ℚ) / 1000).floor = 412 := by
    rw [ratFloor_eq_intFloor, Int.floor_eq_iff]
    norm_num
  unfold rounded_price pyRound
  rw [hfl, if_pos (by norm_num)]
  norm_num

theorem count_one_map_indicator (l : List String) (s : String) :
    (l.map fun x => if x = s then (1 : ℚ) else 0).count 1 = l.count s := by
  induction l with
  | nil => rfl
  | cons a l ih =>
    by_cases h : a = s <;> simp [List.count_cons, h, ih]

/-! ### Claims -/

/-- C1: for every town in the 26-member enumeration and every flat type in
the 5-member enumeration, the encoded vector's town-indicator block is the
one-hot vector with the 1 at the town's declared position (and 0 at the
other 25 positions), and its flat-type-indicator block is the one-hot
vector with the 1 at the flat type's declared position (and 0 at the other
4 positions). -/
theorem one_hot_exact (p : PropertyInput)
    (ht : p.selected_town ∈ towns) (hf : p.selected_flat_type ∈ flat_types) :
    ((features p).drop 4).take 26
      = (List.range 26).map
          (fun i => if i = towns.indexOf p.selected_town then (1 : ℚ) else 0)
  ∧ (features p).drop 30
      = (List.range 5).map
          (fun j => if j = flat_types.indexOf p.selected_flat_type then (1 : ℚ) else 0) := by
  obtain ⟨fa, lc, pc, cy, t, f⟩ := p
  constructor
  · rw [features_town_block]
    fin_cases ht <;> rfl
  · rw [features_flat_block]
    fin_cases hf <;> rfl

/-- Witness for C1 at town "BEDOK" (declared position 1) and flat type
"5 ROOM" (declared position 2). -/
theorem one_hot_exact_witness :
    ((features ⟨148, 1992, 520329, 2024, "BEDOK", "5 ROOM"⟩).drop 4).take 26
      = (List.range 26).map (fun i => if i = towns.indexOf "BEDOK" then (1 : ℚ) else 0)
  ∧ (features ⟨148, 1992, 520329, 2024, "BEDOK", "5 ROOM"⟩).drop 30
      = (List.range 5).map (fun j => if j = flat_types.indexOf "5 ROOM" then (1 : ℚ) else 0) :=
  one_hot_exact ⟨148, 1992, 520329, 2024, "BEDOK", "5 ROOM"⟩ (by decide) (by decide)

/-- C2: for every valid PropertyInput the encoder yields exactly 35
elements in the fixed order floor_area, lease_commence_year, postal_code,
current_year, then the 26 town indicators in declared order, then the 5
flat-type indicators in declared order. -/
theorem features_shape (p : PropertyInput) (h : ValidInput p) :
    (features p).length = 35
  ∧ (features p)[0]! = p.floor_area
  ∧ (features p)[1]! = (p.lease_commence_date : ℚ)
  ∧ (features p)[2]! = (p.postal_code : ℚ)
  ∧ (features p)[3]! = (p.current_year : ℚ)
  ∧ (∀ i : ℕ, i < 26 →
      (features p)[4 + i]! = if towns[i]! = p.selected_town then (1 : ℚ) else 0)
  ∧ (∀ j : ℕ, j < 5 →
      (features p)[30 + j]! = if flat_types[j]! = p.selected_flat_type then (1 : ℚ) else 0) := by
  refine ⟨rfl, rfl, rfl, rfl, rfl, ?_, ?_⟩
  · intro i hi
    interval_cases i <;> rfl
  · intro j hj
    interval_cases j <;> rfl

/-- Witness for C2 at the default form values. -/
theorem features_shape_witness :
    ValidInput exampleInput
  ∧ (features exampleInput).length = 35
  ∧ (features exampleInput)[4 + 0]!
      = (if towns[0]! = exampleInput.selected_town then (1 : ℚ) else 0)
  ∧ (features exampleInput)[30 + 1]!
      = (if flat_types[1]! = exampleInput.selected_flat_type then (1 : ℚ) else 0) :=
  ⟨by decide,
   (features_shape exampleInput (by decide)).1,
   (features_shape exampleInput (by decide)).2.2.2.2.2.1 0 (by decide),
   (features_shape exampleInput (by decide)).2.2.2.2.2.2 1 (by decide)⟩

/-- C3: encoding the input (148.0, 1992, 520329, 2024, "ANG MO KIO",
"4 ROOM") yields the vector [148, 1992, 520329, 2024] followed by a 1 in
the first of the 26 town slots and 0 in the other 25, followed by a 1 in
the second of the 5 flat-type slots and 0 in the other 4. -/
theorem features_example :
    features exampleInput
      = [148, 1992, 520329, 2024,
         1, 0, 0, 0, 0, 0, 0, 0, 0, 0, 0, 0, 0, 0, 0, 0, 0, 0, 0, 0, 0, 0, 0, 0, 0, 0,
         0, 1, 0, 0, 0] := by
  decide

/-- C4: every displayed price equals pyRound (raw / 1000) * 1000, is a
multiple of 1000, and is within 500 of the raw output (hence the nearest
multiple of 1000); at every exact .5 boundary (the half-odd-integer
ratios) the chosen integer is even (round-half-to-even); the raw output
412374.5 rounds to 412000. -/
theorem rounded_price_spec :
    (∀ raw : ℚ,
        rounded_price raw = pyRound (raw / 1000) * 1000
      ∧ (1000 : ℤ) ∣ rounded_price raw
      ∧ |(rounded_price raw : ℚ) - raw| ≤ 500)
  ∧ (∀ n : ℤ, pyRound ((2 * n + 1 : ℚ) / 2) % 2 = 0)
  ∧ rounded_price 412374.5 = 412000 := by
  refine ⟨fun raw => ⟨rfl, dvd_mul_left 1000 (pyRound (raw / 1000)), ?_⟩,
    pyRound_tie_even, rounded_price_example⟩
  have h := abs_pyRound_sub_le (raw / 1000)
  rw [abs_le] at h ⊢
  unfold rounded_price
  push_cast
  constructor <;> linarith [h.1, h.2]

/-- C5: when the selected town (respectively flat type) is not in its
enumeration, the encoder raises no error: that field's whole indicator
block is 0 and the vector still has its 35 elements. -/
theorem silent_no_match (p : PropertyInput) :
    (p.selected_town ∉ towns →
      ((features p).drop 4).take 26 = List.replicate 26 (0 : ℚ))
  ∧ (p.selected_flat_type ∉ flat_types →
      (features p).drop 30 = List.replicate 5 (0 : ℚ))
  ∧ (features p).length = 35 := by
  refine ⟨?_, ?_, rfl⟩
  · intro h
    rw [features_town_block, List.eq_replicate_iff]
    refine ⟨by simp [towns], ?_⟩
    intro b hb
    rcases List.mem_map.mp hb with ⟨t, htmem, rfl⟩
    rw [if_neg]
    intro hts
    exact h (hts ▸ htmem)
  · intro h
    rw [features_flat_block, List.eq_replicate_iff]
    refine ⟨by simp [flat_types], ?_⟩
    intro b hb
    rcases List.mem_map.mp hb with ⟨ft, hftmem, rfl⟩
    rw [if_neg]
    intro hfts
    exact h (hfts ▸ hftmem)

/-- Witness for C5 with an unrecognised town and an unrecognised flat
type. -/
theorem silent_no_match_witness :
    ((features ⟨10, 1990, 123456, 2024, "NOWHERE", "7 ROOM"⟩).drop 4).take 26
      = List.replicate 26 (0 : ℚ)
  ∧ (features ⟨10, 1990, 123456, 2024, "NOWHERE", "7 ROOM"⟩).drop 30
      = List.replicate 5 (0 : ℚ) :=
  ⟨(silent_no_match ⟨10, 1990, 123456, 2024, "NOWHERE", "7 ROOM"⟩).1 (by decide),
   (silent_no_match ⟨10, 1990, 123456, 2024, "NOWHERE", "7 ROOM"⟩).2.1 (by decide)⟩

/-- C6: the encoder is a pure function of the PropertyInput: two runs on
equal inputs yield identical vectors (the embedding is a function, with no
state to affect). -/
theorem features_deterministic (p₁ p₂ : PropertyInput) (h : p₁ = p₂) :
    features p₁ = features p₂ := by
  rw [h]

/-- Witness for C6: two runs on the same default form values. -/
theorem features_deterministic_witness :
    features exampleInput = features exampleInput :=
  features_deterministic exampleInput exampleInput rfl

/-- C7: when the button is clicked and predict succeeds, the script passes
model.predict exactly one batch, that batch holds exactly one vector (the
encoded input), and the displayed price is the rounding of the first
element of the returned sequence. -/
theorem predict_batch_of_one (m : Model) (p : PropertyInput)
    (raw : ℚ) (rest : List ℚ)
    (h : m.predict [features p] = Except.ok (raw :: rest)) :
    (runScript (some m) true p).2 = [[features p]]
  ∧ [features p].length = 1
  ∧ (runScript (some m) true p).1
      = ScriptResult.rendered (some (rounded_price raw)) none := by
  refine ⟨?_, rfl, ?_⟩ <;> simp [runScript, h]

/-- Witness for C7 with a model that returns 412374.5 on every batch. -/
theorem predict_batch_of_one_witness :
    (runScript (some ⟨fun _ => Except.ok [412374.5]⟩) true exampleInput).2
      = [[features exampleInput]]
  ∧ [features exampleInput].length = 1
  ∧ (runScript (some ⟨fun _ => Except.ok [412374.5]⟩) true exampleInput).1
      = ScriptResult.rendered (some (rounded_price 412374.5)) none :=
  predict_batch_of_one ⟨fun _ => Except.ok [412374.5]⟩ exampleInput 412374.5 [] rfl

/-- C8: when the model artifact failed to load, every run of the script
halts at the blocking error message and passes no batch to predict, so a
whole request sequence is answered by the blocking message alone and no
inference is ever attempted. -/
theorem model_unavailable_halts :
    (∀ (clicked : Bool) (p : PropertyInput),
      runScript none clicked p = (ScriptResult.halted modelLoadErrorMsg, []))
  ∧ (∀ reqs : List (Bool × PropertyInput),
      serveRequests none reqs = reqs.map fun _ => ScriptResult.halted modelLoadErrorMsg) := by
  refine ⟨fun clicked p => rfl, fun reqs => ?_⟩
  simp [serveRequests, runScript]

/-- C9: when predict raises on a clicked request, that run renders the
per-request error message and no price, and the remaining requests of a
sequence are served exactly as they would be on their own. -/
theorem inference_error_recovered (m : Model) (p : PropertyInput) (e : String)
    (h : m.predict [features p] = Except.error e) :
    (runScript (some m) true p).1
      = ScriptResult.rendered none (some (predictionErrorMsg e))
  ∧ (∀ reqs : List (Bool × PropertyInput),
      serveRequests (some m) ((true, p) :: reqs)
        = ScriptResult.rendered none (some (predictionErrorMsg e))
            :: serveRequests (some m) reqs) := by
  constructor
  · simp [runScript, h]
  · intro reqs
    simp [serveRequests, runScript, h]

/-- Witness for C9 with a model whose predict always raises. -/
theorem inference_error_recovered_witness :
    (runScript (some ⟨fun _ => Except.error "shape mismatch"⟩) true exampleInput).1
      = ScriptResult.rendered none (some (predictionErrorMsg "shape mismatch")) :=
  (inference_error_recovered ⟨fun _ => Except.error "shape mismatch"⟩
    exampleInput "shape mismatch" rfl).1

/-- C10: for every input, member of the enumerations or not, each one-hot
block contains at most one 1 (the 26 town literals and the 5 flat-type
literals are pairwise distinct) and the vector length is exactly 35. -/
theorem one_hot_at_most_one (p : PropertyInput) :
    towns.Nodup
  ∧ flat_types.Nodup
  ∧ (((features p).drop 4).take 26).count 1 ≤ 1
  ∧ ((features p).drop 30).count 1 ≤ 1
  ∧ (features p).length = 35 := by
  refine ⟨by decide, by decide, ?_, ?_, rfl⟩
  · rw [features_town_block, count_one_map_indicator]
    exact List.nodup_iff_count_le_one.mp (by decide) p.selected_town
  · rw [features_flat_block, count_one_map_indicator]
    exact List.nodup_iff_count_le_one.mp (by decide) p.selected_flat_type
